import Mathlib

/-!
Shallow embedding of `blivet/tasks/fssize.py`: filesystem size gathering.

The module defines an abstract tag-based size extractor `FSSize` (five
concrete variants supplying only a pair of textual tags) and a live-query
task `TmpFSSize` that runs `df` against a mount point.

Python string operations are modelled on the character lists underlying
Lean strings (structurally recursive, so concrete runs reduce in the
kernel):
  * `str.splitlines()`  -> `splitlines` (each newline terminates a line; a
    non-empty trailing partial line is kept, so text ending in a newline
    yields no empty final line);
  * `str.strip()`       -> `pyStrip` (drop whitespace from both ends);
  * `str.split()`       -> `pySplit` (fields are maximal runs of
    non-whitespace characters);
  * `str.startswith(p)` -> `pyStartsWith`;
  * `int(field)`        -> `pyInt` (optional sign followed by decimal
    digits; the field comes from `str.split()` so it holds no whitespace).

The classes `task.Task` (providing `impossible`) and `size.Size` are not
part of the sources; they are modelled from the spec where marked.
Sizes are modelled as integer byte counts.
-/

namespace FsSize

/-- Accumulating worker for `splitlines`: a newline emits the line gathered
so far (in reverse); at the end of the text a non-empty partial line is
emitted as well. -/
def splitlinesAux : List Char → List Char → List String
  | [], acc => if acc = [] then [] else [String.mk acc.reverse]
  | c :: cs, acc =>
    if c = '\n' then String.mk acc.reverse :: splitlinesAux cs []
    else splitlinesAux cs (c :: acc)

/-- Python `str.splitlines()` restricted to newline separators. -/
def splitlines (s : String) : List String :=
  splitlinesAux s.data []

/-- Python `str.strip()`: the text with whitespace removed from both
ends. -/
def pyStrip (s : String) : String :=
  String.mk
    (((s.data.dropWhile Char.isWhitespace).reverse.dropWhile
        Char.isWhitespace).reverse)

/-- Python `str.startswith(pre)`. -/
def pyStartsWith (s pre : String) : Bool :=
  pre.data.isPrefixOf s.data

/-- Accumulating worker for `pySplit`: whitespace closes the field gathered
so far (when non-empty); other characters extend it. -/
def pySplitAux : List Char → List Char → List String
  | [], acc => if acc = [] then [] else [String.mk acc.reverse]
  | c :: cs, acc =>
    if Char.isWhitespace c then
      if acc = [] then pySplitAux cs []
      else String.mk acc.reverse :: pySplitAux cs []
    else pySplitAux cs (c :: acc)

/-- Python `str.split()` with no separator: fields are the maximal runs of
non-whitespace characters; no empty fields are produced. -/
def pySplit (s : String) : List String :=
  pySplitAux s.data []

/-- Value of a non-empty list of decimal digits. -/
def digitsToNat (l : List Char) : Nat :=
  l.foldl (fun n c => n * 10 + (c.toNat - 48)) 0

/-- Reading of a digit string: `some` exactly for a non-empty all-digit
list. -/
def pyDigits (l : List Char) : Option Nat :=
  if l ≠ [] ∧ l.all Char.isDigit then some (digitsToNat l) else none

/-- Python `int(field)` on a whitespace-free field: an optional sign
followed by one or more decimal digits; anything else raises `ValueError`,
modelled as `none`. -/
def pyInt (s : String) : Option Int :=
  match s.data with
  | '-' :: rest => (pyDigits rest).map (fun n => -(n : Int))
  | '+' :: rest => (pyDigits rest).map (fun n => (n : Int))
  | l => (pyDigits l).map (fun n => (n : Int))

/-- The two keys of `_tags = ("count", "size")`, in declaration order. -/
inductive TagKey where
  | count
  | size
deriving DecidableEq, Repr

/-- The Python string naming each key. -/
def TagKey.name : TagKey → String
  | .count => "count"
  | .size => "size"

/-- The `_Tags` namedtuple: one literal tag string per key. -/
structure Tags where
  count : String
  size : String
deriving DecidableEq, Repr

/-- Field access `getattr(self.tags, k)`. -/
def Tags.get : Tags → TagKey → String
  | t, .count => t.count
  | t, .size => t.size

/-- The `values` dictionary of `FSSize.doTask`: each key is either resolved
to an integer or still unset. -/
structure Values where
  count : Option Int
  size : Option Int
deriving DecidableEq, Repr

/-- Dictionary read `values[k]`. -/
def Values.get : Values → TagKey → Option Int
  | v, .count => v.count
  | v, .size => v.size

/-- Dictionary write `values[k] = x`. -/
def Values.set : Values → TagKey → Option Int → Values
  | v, .count, x => { v with count := x }
  | v, .size, x => { v with size := x }

/-- The initial dictionary: `values[k] = None` for each key. -/
def initValues : Values := ⟨none, none⟩

/-- Line classification
`next((k for k in _tags if line.startswith(getattr(self.tags, k))), None)`:
the first key, in `_tags` order (`count` before `size`), whose tag is a
prefix of the line. -/
def findKey (tags : Tags) (line : String) : Option TagKey :=
  if pyStartsWith line tags.count then some .count
  else if pyStartsWith line tags.size then some .size
  else none

/-- The inner field loop of `FSSize.doTask`: reverse the fields of the
matching line and take the first one that parses as an integer
(`fields.reverse(); for field in fields: try: int(field); break`). -/
def lastNumeric (fields : List String) : Option Int :=
  fields.reverse.findSome? pyInt

/-- One iteration of the line loop of `FSSize.doTask`: skip a line matching
no tag; raise `FSError("found two matches for key %s" % key)` when the
matched key is already resolved; otherwise store the last numeric field
(leaving the key unset when the line has none). -/
def processLine (tags : Tags) (values : Values) (line : String) :
    Except String Values :=
  match findKey tags line with
  | none => .ok values
  | some key =>
    match values.get key with
    | some _ => .error ("found two matches for key " ++ key.name)
    | none => .ok (values.set key (lastNumeric (pySplit line)))

/-- The full line loop of `FSSize.doTask` over the stripped lines. -/
def scanLines (tags : Tags) (lines : List String) (values : Values) :
    Except String Values :=
  match lines with
  | [] => .ok values
  | line :: rest =>
    match processLine tags values line with
    | .error e => .error e
    | .ok v => scanLines tags rest v

/-- The post-scan check
`next((k for k in _tags if values[k] is None), None)`: the first key, in
`_tags` order, still unresolved. -/
def missingKey (values : Values) : Option TagKey :=
  if values.count = none then some .count
  else if values.size = none then some .size
  else none

/-- Lines of the diagnostic text after
`(l.strip() for l in self.fs._current_info.splitlines())`. -/
def strippedLines (text : String) : List String :=
  (splitlines text).map pyStrip

/-- The parsing core of `FSSize.doTask`, from the line loop to the returned
product `values["count"] * Size(values["size"])`.  When `missingKey` is
`none` both values are `some`, so the `getD` defaults are never used. -/
def FSSize.parseInfo (tags : Tags) (info : String) : Except String Int :=
  match scanLines tags (strippedLines info) initValues with
  | .error e => .error e
  | .ok values =>
    match missingKey values with
    | some k => .error ("Failed to parse info for " ++ k.name ++ ".")
    | none => .ok (values.count.getD 0 * values.size.getD 0)

/-- The state of the filesystem object an `FSSize` task reads:
`fs._current_info`, the optional captured diagnostic text. -/
structure FSState where
  currentInfo : Option String
deriving DecidableEq, Repr

/-- The `FSSize.unavailable` property: always `False`. -/
def FSSize.unavailable (_fs : FSState) : Option String := none

/-- The `FSSize.unready` property: always `False`. -/
def FSSize.unready (_fs : FSState) : Option String := none

/-- The `FSSize.unable` property: a message exactly when the filesystem has
no captured diagnostic text. -/
def FSSize.unable (fs : FSState) : Option String :=
  match fs.currentInfo with
  | none => some "No filesystem info available to extract current size from."
  | some _ => none

/-- Modelled from the spec: `task.Task.impossible` (the `task` module is
not under `src/`) yields the first non-empty message among `unavailable`,
`unready`, `unable`, in that priority order, and is empty iff all three
are clear. -/
def taskImpossible (unavailable unready unable : Option String) :
    Option String :=
  unavailable.orElse (fun _ => unready.orElse (fun _ => unable))

/-- The `impossible` predicate of an `FSSize` task. -/
def FSSize.impossible (fs : FSState) : Option String :=
  taskImpossible (FSSize.unavailable fs) (FSSize.unready fs)
    (FSSize.unable fs)

/-- The whole of `FSSize.doTask`: raise when `impossible` is non-empty,
otherwise parse the captured diagnostic text.  The final branch is
unreachable: `impossible` empty forces `currentInfo` present. -/
def FSSize.doTask (tags : Tags) (fs : FSState) : Except String Int :=
  match FSSize.impossible fs with
  | some msg => .error msg
  | none =>
    match fs.currentInfo with
    | some info => FSSize.parseInfo tags info
    | none =>
      .error "No filesystem info available to extract current size from."

/-- Tags of `Ext2FSSize`. -/
def Ext2FSSize.tags : Tags := { size := "Block size:", count := "Block count:" }

/-- Tags of `JFSSize`. -/
def JFSSize.tags : Tags :=
  { size := "Physical block size:", count := "Aggregate size:" }

/-- Tags of `NTFSSize`. -/
def NTFSSize.tags : Tags :=
  { size := "Cluster Size:", count := "Volume Size in Clusters:" }

/-- Tags of `ReiserFSSize`. -/
def ReiserFSSize.tags : Tags :=
  { size := "Blocksize:", count := "Count of blocks on the device:" }

/-- Tags of `XFSSize`. -/
def XFSSize.tags : Tags := { size := "blocksize =", count := "dblocks =" }

/-- The `doTask` of the ext2 variant: the generic engine at its tags. -/
def Ext2FSSize.doTask (fs : FSState) : Except String Int :=
  FSSize.doTask Ext2FSSize.tags fs

/-- The `doTask` of the JFS variant. -/
def JFSSize.doTask (fs : FSState) : Except String Int :=
  FSSize.doTask JFSSize.tags fs

/-- The `doTask` of the NTFS variant. -/
def NTFSSize.doTask (fs : FSState) : Except String Int :=
  FSSize.doTask NTFSSize.tags fs

/-- The `doTask` of the ReiserFS variant. -/
def ReiserFSSize.doTask (fs : FSState) : Except String Int :=
  FSSize.doTask ReiserFSSize.tags fs

/-- The `doTask` of the XFS variant. -/
def XFSSize.doTask (fs : FSState) : Except String Int :=
  FSSize.doTask XFSSize.tags fs

/-!
The live-query task `TmpFSSize`: runs `df <mountpoint> --output=size` and
parses its fixed two-line output.
-/

/-- The state of the filesystem object a `TmpFSSize` task reads, together
with the availability of its external application: `fs.status` (mounted),
`fs.systemMountpoint`, and whether the `df` application can be located. -/
structure TmpFSState where
  status : Bool
  systemMountpoint : String
  appAvailable : Bool
deriving DecidableEq, Repr

/-- The `app_name` class attribute. -/
def TmpFSSize.appName : String := "df"

/-- The `TmpFSSize.available` classmethod. -/
def TmpFSSize.available (fs : TmpFSState) : Bool := fs.appAvailable

/-- The `TmpFSSize.unavailable` property: a message naming the application
exactly when it cannot be located. -/
def TmpFSSize.unavailable (fs : TmpFSState) : Option String :=
  if fs.appAvailable then none
  else some ("application " ++ TmpFSSize.appName ++ " is not available")

/-- The `TmpFSSize.unready` property: a message exactly when the
filesystem is not mounted. -/
def TmpFSSize.unready (fs : TmpFSState) : Option String :=
  if fs.status then none else some "filesystem is not mounted"

/-- The `TmpFSSize.unable` property: always `False`. -/
def TmpFSSize.unable (_fs : TmpFSState) : Option String := none

/-- The `impossible` predicate of a `TmpFSSize` task. -/
def TmpFSSize.impossible (fs : TmpFSState) : Option String :=
  taskImpossible (TmpFSSize.unavailable fs) (TmpFSSize.unready fs)
    (TmpFSSize.unable fs)

/-- The `_sizeCommand` property:
`[str(self._app), self.fs.systemMountpoint, "--output=size"]`. -/
def TmpFSSize.sizeCommand (fs : TmpFSState) : List String :=
  [TmpFSSize.appName, fs.systemMountpoint, "--output=size"]

/-- A single-quote character, used by the Python rendering of a string
list. -/
def sq : String := String.singleton (Char.ofNat 39)

/-- Python `"%s" % xs` for a list of strings: bracketed, comma-separated,
each element single-quoted. -/
def pyListStr (xs : List String) : String :=
  "[" ++ String.intercalate ", " (xs.map (fun s => sq ++ s ++ sq)) ++ "]"

/-- The message of `FSError("Failed to execute command %s." % self._sizeCommand)`. -/
def TmpFSSize.execFailMsg (fs : TmpFSState) : String :=
  "Failed to execute command " ++ pyListStr (TmpFSSize.sizeCommand fs) ++ "."

/-- The message of `FSError("Failed to parse output of command %s." % self._sizeCommand)`. -/
def TmpFSSize.parseFailMsg (fs : TmpFSState) : String :=
  "Failed to parse output of command " ++ pyListStr (TmpFSSize.sizeCommand fs)
    ++ "."

/-- Outcome of `util.run_program_and_capture_output(self._sizeCommand)`:
either the process could not be started (`OSError`), or it finished with
an exit status and captured standard output. -/
inductive RunResult where
  | launchFailure
  | finished (ret : Int) (out : String)
deriving DecidableEq, Repr

/-- Modelled from the spec: `Size` (module `size`, not under `src/`) is
constructible from a magnitude-plus-unit string; for the kibibyte-scaled
string `"%s KiB" % magnitude` the trimmed magnitude text is read as an
integer count of kibibytes, each of 1024 bytes.  A magnitude that is not a
number is a `ValueError`, modelled as the error case. -/
def sizeFromKiBString (magnitude : String) : Except String Int :=
  match pyInt (pyStrip magnitude) with
  | some k => .ok (k * 1024)
  | none => .error "invalid size specification"

/-- The whole of `TmpFSSize.doTask`: raise when `impossible` is non-empty;
raise naming the command when the process cannot be launched or exits
non-zero; raise naming the command unless the output is exactly two lines
headed by `1K-blocks`; otherwise return the second line read as
kibibytes. -/
def TmpFSSize.doTask (fs : TmpFSState) (run : RunResult) :
    Except String Int :=
  match TmpFSSize.impossible fs with
  | some msg => .error msg
  | none =>
    match run with
    | .launchFailure => .error (TmpFSSize.execFailMsg fs)
    | .finished ret out =>
      if ret ≠ 0 then .error (TmpFSSize.execFailMsg fs)
      else
        match splitlines out with
        | [l0, l1] =>
          if pyStrip l0 = "1K-blocks" then sizeFromKiBString l1
          else .error (TmpFSSize.parseFailMsg fs)
        | _ => .error (TmpFSSize.parseFailMsg fs)

/-!
Helper lemmas about the `values` dictionary, line classification and the
line loop.
-/

/-- Reading back a freshly written key. -/
theorem Values.get_set_same (v : Values) (k : TagKey) (x : Option Int) :
    (v.set k x).get k = x := by
  cases k <;> rfl

/-- Writing one key leaves the other unchanged. -/
theorem Values.get_set_ne (v : Values) (k k' : TagKey) (x : Option Int)
    (h : k ≠ k') : (v.set k x).get k' = v.get k' := by
  cases k <;> cases k' <;> first | rfl | exact absurd rfl h

/-- Writing `none` over an unset key changes nothing. -/
theorem Values.set_none_of_get_none (v : Values) (k : TagKey)
    (h : v.get k = none) : v.set k none = v := by
  cases v; cases k <;> simp_all [Values.get, Values.set]

/-- A line starting with the `count` tag is classified as `count`. -/
theorem findKey_count (t : Tags) (l : String)
    (h : pyStartsWith l t.count = true) : findKey t l = some .count := by
  simp [findKey, h]

/-- A line starting with the `size` tag but not the `count` tag is
classified as `size`. -/
theorem findKey_size (t : Tags) (l : String)
    (hc : pyStartsWith l t.count = false)
    (hs : pyStartsWith l t.size = true) : findKey t l = some .size := by
  simp [findKey, hc, hs]

/-- A line starting with neither tag is skipped. -/
theorem findKey_none (t : Tags) (l : String)
    (hc : pyStartsWith l t.count = false)
    (hs : pyStartsWith l t.size = false) : findKey t l = none := by
  simp [findKey, hc, hs]

/-- A line starting with the tag of `k1` and not with the tag of the other
key is classified as `k1`. -/
theorem findKey_first (t : Tags) (l : String) (k1 k2 : TagKey)
    (hk : k1 ≠ k2) (h1 : pyStartsWith l (t.get k1) = true)
    (h2 : pyStartsWith l (t.get k2) = false) : findKey t l = some k1 := by
  cases k1 <;> cases k2 <;> simp_all [Tags.get, findKey]

/-- A line not starting with the tag of `k` is never classified as `k`. -/
theorem findKey_not_key (t : Tags) (l : String) (k : TagKey)
    (h : pyStartsWith l (t.get k) = false) : findKey t l ≠ some k := by
  cases k <;> simp only [Tags.get] at h <;>
    simp only [findKey, h, Bool.false_eq_true, if_false] <;>
    split <;> simp

/-- The line loop over a concatenation runs the two halves in
sequence. -/
theorem scanLines_append (t : Tags) (xs ys : List String) (v : Values) :
    scanLines t (xs ++ ys) v =
      (scanLines t xs v).bind (fun v2 => scanLines t ys v2) := by
  induction xs generalizing v with
  | nil => simp [scanLines, Except.bind]
  | cons l rest ih =>
    simp only [List.cons_append, scanLines]
    cases processLine t v l <;> simp [Except.bind, ih]

/-- Lines matching no tag leave the dictionary untouched. -/
theorem scanLines_skip (t : Tags) (xs : List String) (v : Values)
    (h : ∀ l ∈ xs, findKey t l = none) : scanLines t xs v = .ok v := by
  induction xs with
  | nil => rfl
  | cons l rest ih =>
    have hl : findKey t l = none := h l (by simp)
    simp only [scanLines, processLine, hl]
    exact ih (fun l2 hl2 => h l2 (by simp [hl2]))

/-- Fields that all fail to parse contribute nothing to `findSome?`. -/
theorem findSome?_all_none (l l' : List String)
    (h : ∀ x ∈ l, pyInt x = none) :
    List.findSome? pyInt (l ++ l') = List.findSome? pyInt l' := by
  induction l with
  | nil => rfl
  | cons x rest ih =>
    have hx : pyInt x = none := h x (by simp)
    simp only [List.cons_append, List.findSome?, hx]
    exact ih (fun y hy => h y (by simp [hy]))

/-- The inner field loop resolves the last parsable field: every field
after it fails to parse, and it parses to `v`. -/
theorem lastNumeric_eq (F G : List String) (f : String) (v : Int)
    (hf : pyInt f = some v) (hG : ∀ g ∈ G, pyInt g = none) :
    lastNumeric (F ++ f :: G) = some v := by
  unfold lastNumeric
  rw [List.reverse_append, List.reverse_cons, List.append_assoc]
  rw [findSome?_all_none G.reverse _ (fun g hg => hG g (by simpa using hg))]
  simp [List.findSome?, hf]

/-- A scan over lines never starting with the tag of `k` leaves `k`
unresolved if it was unresolved before. -/
theorem scanLines_preserves_none (t : Tags) (k : TagKey)
    (xs : List String) (h : ∀ l ∈ xs, pyStartsWith l (t.get k) = false) :
    ∀ v v2, scanLines t xs v = .ok v2 → v.get k = none →
      v2.get k = none := by
  induction xs with
  | nil =>
    intro v v2 hs hv
    simp only [scanLines] at hs
    cases hs
    exact hv
  | cons l rest ih =>
    intro v v2 hs hv
    have hl : findKey t l ≠ some k :=
      findKey_not_key t l k (h l (by simp))
    have hrest : ∀ l2 ∈ rest, pyStartsWith l2 (t.get k) = false :=
      fun l2 hl2 => h l2 (by simp [hl2])
    cases hfk : findKey t l with
    | none =>
      simp only [scanLines, processLine, hfk] at hs
      exact ih hrest v v2 hs hv
    | some k' =>
      have hkk : k' ≠ k := fun he => hl (by rw [hfk, he])
      cases hg : v.get k' with
      | some x =>
        simp only [scanLines, processLine, hfk, hg] at hs
        exact absurd hs (by simp)
      | none =>
        simp only [scanLines, processLine, hfk, hg] at hs
        refine ih hrest _ v2 hs ?_
        rw [Values.get_set_ne v k' k _ hkk]
        exact hv

/-- Unfolding of `FSSize.doTask` when diagnostic text is present: the
`impossible` check passes and the text is parsed. -/
theorem FSSize.doTask_of_info (tags : Tags) (fs : FSState) (info : String)
    (h : fs.currentInfo = some info) :
    FSSize.doTask tags fs = FSSize.parseInfo tags info := by
  simp [FSSize.doTask, FSSize.impossible, taskImpossible,
    FSSize.unavailable, FSSize.unready, FSSize.unable, h, Option.orElse]

/-- C1: for a diagnostic text whose stripped lines contain exactly one
line starting with the tag of one key (`k1`, resolving the integer `v1`)
and exactly one line starting with the tag of the other key (`k2`,
resolving `v2`), `FSSize.doTask` returns `count * size`; the surrounding
non-matching lines `A`, `B`, `C` are arbitrary, per-line whitespace was
already removed by stripping, and trailing non-numeric fields are absorbed
by the `lastNumeric` hypotheses. -/
theorem fssize_doTask_unique_tag_lines (tags : Tags) (fs : FSState)
    (text : String) (A B C : List String) (l1 l2 : String)
    (k1 k2 : TagKey) (v1 v2 : Int)
    (hinfo : fs.currentInfo = some text)
    (hsplit : strippedLines text = A ++ (l1 :: B) ++ (l2 :: C))
    (hjunk : ∀ l ∈ A ++ B ++ C,
      pyStartsWith l (tags.get .count) = false ∧
        pyStartsWith l (tags.get .size) = false)
    (hk : k1 ≠ k2)
    (h1 : pyStartsWith l1 (tags.get k1) = true)
    (h1n : pyStartsWith l1 (tags.get k2) = false)
    (h2 : pyStartsWith l2 (tags.get k2) = true)
    (h2n : pyStartsWith l2 (tags.get k1) = false)
    (hv1 : lastNumeric (pySplit l1) = some v1)
    (hv2 : lastNumeric (pySplit l2) = some v2) :
    FSSize.doTask tags fs =
      .ok ((if k1 = TagKey.count then v1 else v2) *
        (if k1 = TagKey.count then v2 else v1)) := by
  have hjA : ∀ l ∈ A, findKey tags l = none := fun l hl =>
    findKey_none tags l (hjunk l (by simp [hl])).1 (hjunk l (by simp [hl])).2
  have hjB : ∀ l ∈ B, findKey tags l = none := fun l hl =>
    findKey_none tags l (hjunk l (by simp [hl])).1 (hjunk l (by simp [hl])).2
  have hjC : ∀ l ∈ C, findKey tags l = none := fun l hl =>
    findKey_none tags l (hjunk l (by simp [hl])).1 (hjunk l (by simp [hl])).2
  have e1 : scanLines tags (l1 :: B) initValues =
      .ok (initValues.set k1 (some v1)) := by
    have hfk1 : findKey tags l1 = some k1 :=
      findKey_first tags l1 k1 k2 hk h1 h1n
    have hik1 : initValues.get k1 = none := by cases k1 <;> rfl
    simp only [scanLines, processLine, hfk1, hik1, hv1]
    exact scanLines_skip tags B _ hjB
  have e2 : scanLines tags (l2 :: C) (initValues.set k1 (some v1)) =
      .ok ((initValues.set k1 (some v1)).set k2 (some v2)) := by
    have hfk2 : findKey tags l2 = some k2 :=
      findKey_first tags l2 k2 k1 (Ne.symm hk) h2 h2n
    have hg2 : (initValues.set k1 (some v1)).get k2 = none := by
      rw [Values.get_set_ne _ _ _ _ hk]
      cases k2 <;> rfl
    simp only [scanLines, processLine, hfk2, hg2, hv2]
    exact scanLines_skip tags C _ hjC
  rw [FSSize.doTask_of_info tags fs text hinfo]
  unfold FSSize.parseInfo
  rw [hsplit, scanLines_append tags (A ++ (l1 :: B)) (l2 :: C) initValues,
    scanLines_append tags A (l1 :: B) initValues,
    scanLines_skip tags A initValues hjA]
  simp only [Except.bind, e1, e2]
  cases k1 <;> cases k2 <;> first | exact absurd rfl hk | rfl

/-- C1 witness: the XFS-like report with `blocksize = 4096` and
`dblocks = 131072` yields 536870912 bytes. -/
theorem fssize_doTask_unique_tag_lines_witness :
    FSSize.doTask XFSSize.tags
      ⟨some "blocksize = 4096\ndblocks = 131072"⟩ = .ok 536870912 := by
  have h := fssize_doTask_unique_tag_lines XFSSize.tags
    ⟨some "blocksize = 4096\ndblocks = 131072"⟩
    "blocksize = 4096\ndblocks = 131072" [] [] []
    "blocksize = 4096" "dblocks = 131072" .size .count 4096 131072
    rfl (by decide) (by simp) (by decide) (by decide) (by decide)
    (by decide) (by decide) (by decide) (by decide)
  exact h.trans (by rfl)

/-- C2 counterexample: in the text
`"dblocks = x\ndblocks = 2\nblocksize = 4"` the count tag line appears
twice, yet `doTask` raises no duplicate-key error and succeeds: the first
matching line resolves no integer, so the second is treated as a first
match. -/
theorem fssize_duplicate_tag_counterexample :
    ((strippedLines "dblocks = x\ndblocks = 2\nblocksize = 4").countP
      (fun l => pyStartsWith l (XFSSize.tags.get .count))) = 2 ∧
    FSSize.doTask XFSSize.tags
      ⟨some "dblocks = x\ndblocks = 2\nblocksize = 4"⟩ = .ok 8 :=
  ⟨by decide, by rfl⟩

/-- C2 (amended): when a line matching key `k` is scanned after an earlier
prefix of the lines has already resolved `k` to an integer, `doTask` fails
with the duplicate-key error naming `k`, and no partial result is
returned. -/
theorem fssize_duplicate_resolved_error (tags : Tags) (fs : FSState)
    (text : String) (pre post : List String) (l2 : String) (k : TagKey)
    (v : Values)
    (hinfo : fs.currentInfo = some text)
    (hsplit : strippedLines text = pre ++ (l2 :: post))
    (hpre : scanLines tags pre initValues = .ok v)
    (hfk : findKey tags l2 = some k)
    (hres : (v.get k).isSome = true) :
    FSSize.doTask tags fs =
      .error ("found two matches for key " ++ k.name) := by
  rw [FSSize.doTask_of_info tags fs text hinfo]
  unfold FSSize.parseInfo
  rw [hsplit, scanLines_append tags pre (l2 :: post) initValues, hpre]
  obtain ⟨x, hx⟩ := Option.isSome_iff_exists.mp hres
  simp only [Except.bind, scanLines, processLine, hfk, hx]

/-- C2 (amended) witness: a second `dblocks =` line after a first that
resolved the value 2 triggers the duplicate-key error naming `count`. -/
theorem fssize_duplicate_resolved_error_witness :
    FSSize.doTask XFSSize.tags
      ⟨some "dblocks = 2\ndblocks = 3\nblocksize = 4"⟩ =
      .error "found two matches for key count" := by
  have h := fssize_duplicate_resolved_error XFSSize.tags
    ⟨some "dblocks = 2\ndblocks = 3\nblocksize = 4"⟩
    "dblocks = 2\ndblocks = 3\nblocksize = 4"
    ["dblocks = 2"] ["blocksize = 4"] "dblocks = 3" .count
    ⟨some 2, none⟩ rfl (by decide) (by rfl) (by decide) (by decide)
  exact h.trans (by rfl)

/-- C3 counterexample: in the text `"blocksize = 4\nblocksize = 5"` no
line starts with the count tag, yet `doTask` does not fail with an error
naming the missing key `count`: the duplicate of the size tag preempts the
missing-key check. -/
theorem fssize_missing_tag_counterexample :
    ((strippedLines "blocksize = 4\nblocksize = 5").countP
      (fun l => pyStartsWith l (XFSSize.tags.get .count))) = 0 ∧
    FSSize.doTask XFSSize.tags ⟨some "blocksize = 4\nblocksize = 5"⟩ =
      .error "found two matches for key size" :=
  ⟨by decide, by rfl⟩

/-- C3 (amended): when the line scan completes without a duplicate-key
error and no line starts with the tag of `k`, `doTask` fails with the
missing-key error, naming the first unresolved key in the order
`(count, size)`. -/
theorem fssize_missing_tag_error (tags : Tags) (fs : FSState)
    (text : String) (k : TagKey) (values : Values)
    (hinfo : fs.currentInfo = some text)
    (hscan : scanLines tags (strippedLines text) initValues = .ok values)
    (habsent : ∀ l ∈ strippedLines text,
      pyStartsWith l (tags.get k) = false) :
    ∃ m, missingKey values = some m ∧ values.get m = none ∧
      FSSize.doTask tags fs =
        .error ("Failed to parse info for " ++ m.name ++ ".") := by
  have hnone : values.get k = none :=
    scanLines_preserves_none tags k _ habsent initValues values hscan
      (by cases k <;> rfl)
  rw [FSSize.doTask_of_info tags fs text hinfo]
  unfold FSSize.parseInfo
  rw [hscan]
  cases hc : values.count with
  | none =>
    refine ⟨.count, by simp [missingKey, hc], hc, ?_⟩
    simp [missingKey, hc, TagKey.name]
  | some c =>
    cases k with
    | count =>
      have : values.count = none := hnone
      rw [hc] at this
      cases this
    | size =>
      have hsz : values.size = none := hnone
      refine ⟨.size, by simp [missingKey, hc, hsz], hsz, ?_⟩
      simp [missingKey, hc, hsz, TagKey.name]

/-- C3 (amended) witness: text whose only line is a size line makes
`doTask` fail naming `count`, the first unresolved key. -/
theorem fssize_missing_tag_error_witness :
    (∀ l ∈ strippedLines "blocksize = 4",
      pyStartsWith l (XFSSize.tags.get .count) = false) ∧
    ∃ m, missingKey ⟨none, some 4⟩ = some m ∧
      Values.get ⟨none, some 4⟩ m = none ∧
      FSSize.doTask XFSSize.tags ⟨some "blocksize = 4"⟩ =
        .error ("Failed to parse info for " ++ m.name ++ ".") :=
  ⟨by decide,
    fssize_missing_tag_error XFSSize.tags ⟨some "blocksize = 4"⟩
      "blocksize = 4" .count ⟨none, some 4⟩ rfl (by rfl) (by decide)⟩

/-- C4: a line matched to an unresolved key resolves to the value of the
last whitespace-delimited field that parses as an integer.  The fields of
the trimmed line decompose as `F ++ f :: G`: every field in `G` (after the
numeric one) fails to parse and is skipped, `f` is the first parsable
field met when scanning from the end. -/
theorem fssize_line_resolves_last_numeric_field (tags : Tags)
    (values : Values) (line : String) (k : TagKey) (F G : List String)
    (f : String) (v : Int)
    (hfk : findKey tags line = some k)
    (hunres : values.get k = none)
    (hfields : pySplit line = F ++ (f :: G))
    (hf : pyInt f = some v)
    (hG : ∀ g ∈ G, pyInt g = none) :
    processLine tags values line = .ok (values.set k (some v)) := by
  simp only [processLine, hfk, hunres, hfields,
    lastNumeric_eq F G f v hf hG]

/-- C4 witness: in `"dblocks = 512 blks,"` the trailing field `blks,` is
skipped and the count resolves to 512. -/
theorem fssize_line_resolves_last_numeric_field_witness :
    processLine XFSSize.tags initValues "dblocks = 512 blks," =
      .ok (Values.set initValues .count (some 512)) :=
  fssize_line_resolves_last_numeric_field XFSSize.tags initValues
    "dblocks = 512 blks," .count ["dblocks", "="] ["blks,"] "512" 512
    (by rfl) (by rfl) (by decide) (by decide) (by decide)

/-- C5: both tasks evaluate the combined `impossible` predicate first and
fail with exactly its message before doing anything else: any non-empty
`impossible` message becomes the raised error; an `FSSize` with no
captured diagnostic text fails with the `unable` message before any
parsing; an unmounted `TmpFSSize` fails with the `unready` message for
every conceivable process outcome, hence without consulting the external
process at all.  The embedding is pure, so no state is modified. -/
theorem tasks_check_impossible_first :
    (∀ (tags : Tags) (fs : FSState) (msg : String),
      FSSize.impossible fs = some msg →
        FSSize.doTask tags fs = .error msg)
    ∧ (∀ (tags : Tags) (fs : FSState), fs.currentInfo = none →
      FSSize.doTask tags fs =
        .error "No filesystem info available to extract current size from.")
    ∧ (∀ (fs : TmpFSState) (run : RunResult) (msg : String),
      TmpFSSize.impossible fs = some msg →
        TmpFSSize.doTask fs run = .error msg)
    ∧ (∀ (fs : TmpFSState) (run : RunResult),
      fs.appAvailable = true → fs.status = false →
        TmpFSSize.doTask fs run = .error "filesystem is not mounted") := by
  refine ⟨?_, ?_, ?_, ?_⟩
  · intro tags fs msg h
    simp [FSSize.doTask, h]
  · intro tags fs h
    simp [FSSize.doTask, FSSize.impossible, taskImpossible,
      FSSize.unavailable, FSSize.unready, FSSize.unable, h, Option.orElse]
  · intro fs run msg h
    simp [TmpFSSize.doTask, h]
  · intro fs run happ hmnt
    simp [TmpFSSize.doTask, TmpFSSize.impossible, taskImpossible,
      TmpFSSize.unavailable, TmpFSSize.unready, TmpFSSize.unable,
      happ, hmnt, Option.orElse]

/-- C5 witness: an `FSSize` with no diagnostic text fails with the
`unable` message; an unmounted `TmpFSSize` fails with the `unready`
message even when handed a perfectly parsable process outcome. -/
theorem tasks_check_impossible_first_witness :
    FSSize.doTask XFSSize.tags ⟨none⟩ =
      .error "No filesystem info available to extract current size from." ∧
    TmpFSSize.doTask ⟨false, "/tmp", true⟩
        (.finished 0 "1K-blocks\n2048\n") =
      .error "filesystem is not mounted" :=
  ⟨tasks_check_impossible_first.2.1 XFSSize.tags ⟨none⟩ rfl,
    tasks_check_impossible_first.2.2.2 ⟨false, "/tmp", true⟩
      (.finished 0 "1K-blocks\n2048\n") rfl rfl⟩

/-- The execution-failure message starts with its distinctive prefix even
though the rendered command inside it is arbitrary. -/
theorem pyStartsWith_execFailMsg (fs : TmpFSState) :
    pyStartsWith (TmpFSSize.execFailMsg fs) "Failed to execute" = true :=
  rfl

/-- The parse-failure message never starts with the execution-failure
prefix: the two differ at their eleventh character. -/
theorem pyStartsWith_parseFailMsg (fs : TmpFSState) :
    pyStartsWith (TmpFSSize.parseFailMsg fs) "Failed to execute" = false :=
  rfl

/-- The execution-failure and parse-failure messages never coincide,
whatever the command renders to. -/
theorem execFail_ne_parseFail (fs : TmpFSState) :
    TmpFSSize.execFailMsg fs ≠ TmpFSSize.parseFailMsg fs := by
  intro he
  have h1 := pyStartsWith_execFailMsg fs
  rw [he, pyStartsWith_parseFailMsg fs] at h1
  cases h1

/-- The execution-failure message never coincides with the invalid-size
message of the `Size` constructor. -/
theorem execFail_ne_invalid (fs : TmpFSState) :
    TmpFSSize.execFailMsg fs ≠ "invalid size specification" := by
  intro he
  have h1 := pyStartsWith_execFailMsg fs
  rw [he] at h1
  cases h1

/-- C6: with the task possible and the process exiting 0, the output must
split into exactly two lines with the first line, trimmed, equal to
`1K-blocks`: then the trimmed second line is returned as a count of
kibibytes; any other shape raises the parse failure naming the
command. -/
theorem tmpfs_output_shape :
    (∀ (fs : TmpFSState) (out l0 l1 : String) (k : Int),
      TmpFSSize.impossible fs = none →
      splitlines out = [l0, l1] →
      pyStrip l0 = "1K-blocks" →
      pyInt (pyStrip l1) = some k →
      TmpFSSize.doTask fs (.finished 0 out) = .ok (k * 1024))
    ∧ (∀ (fs : TmpFSState) (out : String),
      TmpFSSize.impossible fs = none →
      (¬ ∃ l0 l1, splitlines out = [l0, l1] ∧ pyStrip l0 = "1K-blocks") →
      TmpFSSize.doTask fs (.finished 0 out) =
        .error (TmpFSSize.parseFailMsg fs)) := by
  constructor
  · intro fs out l0 l1 k himp hsplit hhead hmag
    simp only [TmpFSSize.doTask, himp]
    rw [if_neg (by simp)]
    rw [hsplit]
    simp only [hhead, if_true, sizeFromKiBString, hmag]
  · intro fs out himp hshape
    simp only [TmpFSSize.doTask, himp]
    rw [if_neg (by simp)]
    cases hls : splitlines out with
    | nil => rfl
    | cons l0 rest =>
      cases rest with
      | nil => rfl
      | cons l1 rest2 =>
        cases rest2 with
        | nil =>
          have hh : pyStrip l0 ≠ "1K-blocks" := fun hh =>
            hshape ⟨l0, l1, hls, hh⟩
          simp only [if_neg hh]
        | cons l2 rest3 => rfl

/-- C6 witness: output `1K-blocks\n2048\n` yields 2048 KiB = 2097152
bytes; output `garbage\n1\n` raises the parse failure naming the
command. -/
theorem tmpfs_output_shape_witness :
    TmpFSSize.doTask ⟨true, "/mnt", true⟩
        (.finished 0 "1K-blocks\n2048\n") = .ok (2048 * 1024) ∧
    TmpFSSize.doTask ⟨true, "/mnt", true⟩ (.finished 0 "garbage\n1\n") =
      .error (TmpFSSize.parseFailMsg ⟨true, "/mnt", true⟩) :=
  ⟨tmpfs_output_shape.1 ⟨true, "/mnt", true⟩ "1K-blocks\n2048\n"
      "1K-blocks" "2048" 2048 rfl (by decide) (by decide) (by decide),
    tmpfs_output_shape.2 ⟨true, "/mnt", true⟩ "garbage\n1\n" rfl
      (by
        rintro ⟨l0, l1, heq, hh⟩
        rw [show splitlines "garbage\n1\n" = ["garbage", "1"] by decide]
          at heq
        injection heq with h1 h2
        rw [← h1] at hh
        exact absurd hh (by decide))⟩

/-- C7: with the task possible, `TmpFSSize.doTask` raises the
execution-failure error naming the command exactly when the process could
not be launched or exited with a non-zero status; in particular no size
value is returned in those cases, and in no other case is that error
raised. -/
theorem tmpfs_exec_error_iff (fs : TmpFSState) (run : RunResult)
    (himp : TmpFSSize.impossible fs = none) :
    TmpFSSize.doTask fs run = .error (TmpFSSize.execFailMsg fs) ↔
      (run = .launchFailure ∨
        ∃ ret out, run = .finished ret out ∧ ret ≠ 0) := by
  constructor
  · intro hdo
    cases run with
    | launchFailure => exact Or.inl rfl
    | finished ret out =>
      refine Or.inr ⟨ret, out, rfl, ?_⟩
      intro hret
      subst hret
      simp only [TmpFSSize.doTask, himp] at hdo
      rw [if_neg (by simp)] at hdo
      cases hls : splitlines out with
      | nil =>
        simp only [hls] at hdo
        exact execFail_ne_parseFail fs (Except.error.inj hdo).symm
      | cons l0 rest =>
        cases rest with
        | nil =>
          simp only [hls] at hdo
          exact execFail_ne_parseFail fs (Except.error.inj hdo).symm
        | cons l1 rest2 =>
          cases rest2 with
          | nil =>
            simp only [hls] at hdo
            by_cases hh : pyStrip l0 = "1K-blocks"
            · rw [if_pos hh] at hdo
              unfold sizeFromKiBString at hdo
              cases hmag : pyInt (pyStrip l1) with
              | some k =>
                simp only [hmag] at hdo
                exact Except.noConfusion hdo
              | none =>
                simp only [hmag] at hdo
                exact execFail_ne_invalid fs (Except.error.inj hdo).symm
            · rw [if_neg hh] at hdo
              exact execFail_ne_parseFail fs (Except.error.inj hdo).symm
          | cons l2 rest3 =>
            simp only [hls] at hdo
            exact execFail_ne_parseFail fs (Except.error.inj hdo).symm
  · intro h
    rcases h with h | ⟨ret, out, hrun, hret⟩
    · subst h
      simp [TmpFSSize.doTask, himp]
    · subst hrun
      simp [TmpFSSize.doTask, himp, hret]

/-- C7 witness: a mounted instance with `df` available and exit status 2
raises the execution-failure error naming the command, and the
characterization instantiates to it. -/
theorem tmpfs_exec_error_iff_witness :
    TmpFSSize.impossible ⟨true, "/mnt", true⟩ = none ∧
    (TmpFSSize.doTask ⟨true, "/mnt", true⟩ (.finished 2 "") =
        .error (TmpFSSize.execFailMsg ⟨true, "/mnt", true⟩) ↔
      (RunResult.finished 2 "" = .launchFailure ∨
        ∃ ret out, RunResult.finished 2 "" = .finished ret out ∧
          ret ≠ 0)) :=
  ⟨rfl, tmpfs_exec_error_iff ⟨true, "/mnt", true⟩ (.finished 2 "") rfl⟩

/-- C8: the readiness predicates are exactly as claimed.  For `FSSize`:
`unavailable` and `unready` always clear, `unable` a non-empty message iff
no diagnostic text is captured.  For `TmpFSSize`: `unable` always clear,
`unready` a non-empty message iff not mounted, `unavailable` a non-empty
message naming the application iff `df` cannot be located. -/
theorem readiness_predicates :
    (∀ fs : FSState, FSSize.unavailable fs = none)
    ∧ (∀ fs : FSState, FSSize.unready fs = none)
    ∧ (∀ fs : FSState,
        (FSSize.unable fs).isSome = true ↔ fs.currentInfo = none)
    ∧ (∀ fs : FSState, fs.currentInfo = none →
        FSSize.unable fs =
          some "No filesystem info available to extract current size from.")
    ∧ (∀ fs : TmpFSState, TmpFSSize.unable fs = none)
    ∧ (∀ fs : TmpFSState,
        (TmpFSSize.unready fs).isSome = true ↔ fs.status = false)
    ∧ (∀ fs : TmpFSState, fs.status = false →
        TmpFSSize.unready fs = some "filesystem is not mounted")
    ∧ (∀ fs : TmpFSState,
        (TmpFSSize.unavailable fs).isSome = true ↔
          fs.appAvailable = false)
    ∧ (∀ fs : TmpFSState, fs.appAvailable = false →
        TmpFSSize.unavailable fs =
          some ("application " ++ TmpFSSize.appName ++
            " is not available")) := by
  refine ⟨fun _ => rfl, fun _ => rfl, ?_, ?_, fun _ => rfl, ?_, ?_, ?_, ?_⟩
  · rintro ⟨info⟩
    cases info <;> simp [FSSize.unable]
  · rintro ⟨info⟩ h
    cases info <;> simp_all [FSSize.unable]
  · rintro ⟨st, mp, av⟩
    cases st <;> simp [TmpFSSize.unready]
  · rintro ⟨st, mp, av⟩ h
    cases st <;> simp_all [TmpFSSize.unready]
  · rintro ⟨st, mp, av⟩
    cases av <;> simp [TmpFSSize.unavailable]
  · rintro ⟨st, mp, av⟩ h
    cases av <;> simp_all [TmpFSSize.unavailable]

/-- C8 witness: the predicate characterizations instantiated at concrete
states. -/
theorem readiness_predicates_witness :
    FSSize.unable ⟨none⟩ =
      some "No filesystem info available to extract current size from." ∧
    TmpFSSize.unready ⟨false, "/tmp", true⟩ =
      some "filesystem is not mounted" ∧
    TmpFSSize.unavailable ⟨true, "/tmp", false⟩ =
      some ("application " ++ TmpFSSize.appName ++ " is not available") :=
  ⟨readiness_predicates.2.2.2.1 ⟨none⟩ rfl,
    readiness_predicates.2.2.2.2.2.2.1 ⟨false, "/tmp", true⟩ rfl,
    readiness_predicates.2.2.2.2.2.2.2.2 ⟨true, "/tmp", false⟩ rfl⟩

/-- C9: the five concrete variants carry exactly the tag pairs of the
spec's table, verbatim, and differ in nothing else: each variant's
`doTask` is the generic engine applied to its tag pair. -/
theorem variant_tags_verbatim :
    Ext2FSSize.tags = { size := "Block size:", count := "Block count:" }
    ∧ JFSSize.tags =
      { size := "Physical block size:", count := "Aggregate size:" }
    ∧ NTFSSize.tags =
      { size := "Cluster Size:", count := "Volume Size in Clusters:" }
    ∧ ReiserFSSize.tags =
      { size := "Blocksize:", count := "Count of blocks on the device:" }
    ∧ XFSSize.tags = { size := "blocksize =", count := "dblocks =" }
    ∧ (∀ fs, Ext2FSSize.doTask fs = FSSize.doTask Ext2FSSize.tags fs)
    ∧ (∀ fs, JFSSize.doTask fs = FSSize.doTask JFSSize.tags fs)
    ∧ (∀ fs, NTFSSize.doTask fs = FSSize.doTask NTFSSize.tags fs)
    ∧ (∀ fs, ReiserFSSize.doTask fs = FSSize.doTask ReiserFSSize.tags fs)
    ∧ (∀ fs, XFSSize.doTask fs = FSSize.doTask XFSSize.tags fs) :=
  ⟨rfl, rfl, rfl, rfl, rfl, fun _ => rfl, fun _ => rfl, fun _ => rfl,
    fun _ => rfl, fun _ => rfl⟩

/-- C10: a matching line without any integer field leaves its key
unresolved and raises nothing; the duplicate-key error is raised exactly
when the matched key was already resolved; hence
`"dblocks = x\nblocksize = 4"` fails with the missing-key error for
`count` (not a value error), and in
`"dblocks = x\ndblocks = 8\nblocksize = 4"` the second `dblocks =` line
is treated as a first match and extraction succeeds. -/
theorem fssize_no_numeric_field_behavior :
    (∀ (tags : Tags) (values : Values) (line : String) (k : TagKey),
      findKey tags line = some k → values.get k = none →
      lastNumeric (pySplit line) = none →
      processLine tags values line = .ok values)
    ∧ (∀ (tags : Tags) (values : Values) (line : String),
      (∃ e, processLine tags values line = .error e) ↔
        ∃ k, findKey tags line = some k ∧ (values.get k).isSome = true)
    ∧ FSSize.doTask XFSSize.tags ⟨some "dblocks = x\nblocksize = 4"⟩ =
        .error "Failed to parse info for count."
    ∧ FSSize.doTask XFSSize.tags
        ⟨some "dblocks = x\ndblocks = 8\nblocksize = 4"⟩ = .ok 32 := by
  refine ⟨?_, ?_, by rfl, by rfl⟩
  · intro tags values line k hfk hg hln
    simp only [processLine, hfk, hg, hln]
    rw [Values.set_none_of_get_none values k hg]
  · intro tags values line
    constructor
    · rintro ⟨e, he⟩
      cases hfk : findKey tags line with
      | none => simp [processLine, hfk] at he
      | some k =>
        cases hg : values.get k with
        | none => simp [processLine, hfk, hg] at he
        | some x => exact ⟨k, rfl, by rw [hg]; rfl⟩
    · rintro ⟨k, hfk, hsome⟩
      obtain ⟨x, hx⟩ := Option.isSome_iff_exists.mp hsome
      exact ⟨"found two matches for key " ++ k.name,
        by simp only [processLine, hfk, hx]⟩

/-- C10 witness: the count line `dblocks = x` resolves nothing, raises
nothing, and leaves the dictionary untouched; on the fresh dictionary no
duplicate-key error is possible for it. -/
theorem fssize_no_numeric_field_behavior_witness :
    processLine XFSSize.tags initValues "dblocks = x" = .ok initValues ∧
    ((∃ e, processLine XFSSize.tags initValues "dblocks = x" = .error e) ↔
      ∃ k, findKey XFSSize.tags "dblocks = x" = some k ∧
        (Values.get initValues k).isSome = true) :=
  ⟨fssize_no_numeric_field_behavior.1 XFSSize.tags initValues
      "dblocks = x" .count (by rfl) rfl (by decide),
    fssize_no_numeric_field_behavior.2.1 XFSSize.tags initValues
      "dblocks = x"⟩

end FsSize
